import Mathlib

/-!
Verification of the Vaani webhook backend (src/index.js).

The source file contains two variants of the same Express server,
separated by a document marker:

* Variant 1 (lines 1-148): Telegram webhook that prefers Hugging Face
  (when HF_API_KEY is set), falls back to OpenAI (when OPENAI_API_KEY is
  set), normalizes the heterogeneous Hugging Face response shapes, and
  posts the reply to the Telegram sendMessage endpoint.
* Variant 2 (lines 149-205): OpenAI-only webhook with no startup token
  check and no response trimming.

The embedding below models JavaScript values as a JSON-like inductive
type, models property access (including the TypeError thrown on null or
undefined bases), truthiness, JSON.stringify, and the two request
handlers as pure functions from the environment, the request body and
the outcomes of the three network calls (Hugging Face, OpenAI, Telegram
send) to an observable result: HTTP status plus the trace of provider
calls and outbound sends.
-/

/-- JSON-like JavaScript values (numbers restricted to integers, which
covers every value the claims exercise). -/
inductive Json where
  | null : Json
  | bool : Bool → Json
  | num : Int → Json
  | str : String → Json
  | arr : List Json → Json
  | obj : List (String × Json) → Json

/-- First binding of a key in an association list, as JavaScript
property lookup on a plain object. -/
def lookupField : List (String × Json) → String → Option Json
  | [], _ => none
  | (k, v) :: rest, key => if k == key then some v else lookupField rest key

/-- Property access on a value known not to be nullish: objects give the
field, arrays give index 0 for the key "0" (the only index the source
uses), everything else gives undefined (modelled as none). -/
def jsMember : Json → String → Option Json
  | .obj fs, k => lookupField fs k
  | .arr xs, k => if k == "0" then xs.head? else none
  | _, _ => none

/-- Property access as an expression: reading a property of null throws
a TypeError, modelled as the error case. -/
def jsDot (j : Json) (k : String) : Except Unit (Option Json) :=
  match j with
  | .null => .error ()
  | v => .ok (jsMember v k)

/-- Property access on a possibly-undefined value: reading a property of
undefined also throws. -/
def jsDotO : Option Json → String → Except Unit (Option Json)
  | none, _ => .error ()
  | some v, k => jsDot v k

/-- JavaScript truthiness of a value. -/
def truthy : Json → Bool
  | .null => false
  | .bool b => b
  | .num n => n != 0
  | .str s => s != ""
  | .arr _ => true
  | .obj _ => true

/-- Truthiness of a possibly-undefined value (undefined is falsy). -/
def truthyOpt : Option Json → Bool
  | none => false
  | some v => truthy v

/-- Escape of one character inside a JSON string literal (the source
only ever stringifies plain text, so quote and backslash suffice). -/
def escapeJsonChar (c : Char) : String :=
  if c = '"' then "\\\"" else if c = '\\' then "\\\\" else String.singleton c

/-- Escape of a whole string for JSON.stringify. -/
def escapeJsonString (s : String) : String :=
  String.join (s.toList.map escapeJsonChar)

mutual

/-- Model of JSON.stringify on the Json type. -/
def jsonStringify : Json → String
  | .null => "null"
  | .bool true => "true"
  | .bool false => "false"
  | .num n => toString n
  | .str s => "\"" ++ escapeJsonString s ++ "\""
  | .arr xs => "[" ++ jsonStringifyElems xs ++ "]"
  | .obj fs => "\x7b" ++ jsonStringifyFields fs ++ "\x7d"

/-- Comma-separated stringification of array elements. -/
def jsonStringifyElems : List Json → String
  | [] => ""
  | [x] => jsonStringify x
  | x :: y :: rest => jsonStringify x ++ "," ++ jsonStringifyElems (y :: rest)

/-- Comma-separated stringification of object fields. -/
def jsonStringifyFields : List (String × Json) → String
  | [] => ""
  | [(k, v)] => "\"" ++ escapeJsonString k ++ "\":" ++ jsonStringify v
  | (k, v) :: f :: rest =>
      "\"" ++ escapeJsonString k ++ "\":" ++ jsonStringify v ++ "," ++
        jsonStringifyFields (f :: rest)

end

/-- Whitespace class used by String.prototype.trim (the characters the
claims exercise). -/
def jsIsWhitespace (c : Char) : Bool :=
  c == ' ' || c == '\t' || c == '\n' || c == '\r'

/-- Model of String.prototype.trim: strip leading and trailing
whitespace. -/
def trimString (s : String) : String :=
  String.mk (((s.data.dropWhile jsIsWhitespace).reverse.dropWhile
    jsIsWhitespace).reverse)

/-- Model of calling String.prototype.trim on a value: only a string has
the method, any other receiver raises a TypeError. -/
def jsTrim : Json → Except Unit String
  | .str s => .ok (trimString s)
  | _ => .error ()

/-- Inner else-branch of the Hugging Face response normalization
(src/index.js lines 49-53): the receiver is a non-null object or array.
Tries data.generated_text, then data[0].generated_text, then
JSON.stringify(data). -/
def hfObjectBranch (data : Json) : Json :=
  let g := jsMember data "generated_text"
  if truthyOpt g then g.getD Json.null
  else
    let z := jsMember data "0"
    if truthyOpt z then
      let g2 := jsMember (z.getD Json.null) "generated_text"
      if truthyOpt g2 then g2.getD Json.null
      else Json.str (jsonStringify data)
    else Json.str (jsonStringify data)

/-- Normalization of the Hugging Face response body into reply text
(src/index.js lines 42-58). Propagates the TypeError raised when the
first array element is null, or when the selected reply value is not a
string (trim is then not a function); the handler catch turns either
into a provider failure. The final result is trimmed. -/
def hfNormalize (data : Json) : Except Unit String := do
  let replyText : Json ←
    match data with
    | .arr (x :: rest) => do
        let g ← jsDot x "generated_text"
        pure (if truthyOpt g then g.getD Json.null
              else hfObjectBranch (Json.arr (x :: rest)))
    | .arr [] => pure (hfObjectBranch (Json.arr []))
    | .str s => pure (Json.str s)
    | .obj fs => pure (hfObjectBranch (Json.obj fs))
    | .null => pure (Json.str "null")
    | .bool b => pure (Json.str (cond b "true" "false"))
    | .num n => pure (Json.str (toString n))
  jsTrim replyText

/-- Model of callHuggingFace (src/index.js lines 28-63): the network
outcome is the oracle argument; on a 2xx response the body is
normalized; any error is rethrown to the caller. -/
def callHuggingFace (resp : Except Unit Json) : Except Unit String := do
  let data ← resp
  hfNormalize data

/-- Model of callOpenAI (src/index.js lines 65-88): extracts
resp.data.choices[0].message.content and trims it; a missing step in the
chain raises a TypeError which, like a network error, is rethrown. -/
def callOpenAI (resp : Except Unit Json) : Except Unit String := do
  let data ← resp
  let choices ← jsDot data "choices"
  let c0 ← jsDotO choices "0"
  let msg ← jsDotO c0 "message"
  let content ← jsDotO msg "content"
  match content with
  | some v => jsTrim v
  | none => .error ()

/-- Completion-provider configuration of variant 1, read from the
environment at startup (HF_API_KEY and OPENAI_API_KEY; none models an
unset variable). -/
structure Env where
  hfKey : Option String
  openaiKey : Option String

/-- Truthiness of an environment variable: unset and empty are falsy. -/
def envTruthy : Option String → Bool
  | none => false
  | some s => s != ""

/-- One outbound sendMessage request: the chat_id and text fields as
passed to the Telegram API (none models the JavaScript undefined). -/
structure SendReq where
  chat : Option Json
  text : Option Json

/-- Observable outcome of one webhook request in variant 1: the HTTP
status of the response and the traces of Hugging Face calls, OpenAI
calls (recording the text sent to each) and outbound sendMessage
attempts, in order. -/
structure HRes where
  status : Nat
  hfCalls : List Json
  oaCalls : List Json
  sends : List SendReq

/-- Fixed apology reply of variant 1 (src/index.js line 115). -/
def apologyReply : String :=
  "Sorry, I\x27m temporarily unable to respond (model error)."

/-- Fixed reply of variant 1 when no provider key is configured
(src/index.js line 122). -/
def notConfiguredReply : String :=
  "Bot is not fully configured — missing HF_API_KEY or OPENAI_API_KEY."

/-- The message object variant 1 works on: req.body.message or req.body
or the empty object (src/index.js line 92). Requires a non-null body
(the null case throws before this expression completes and is handled in
the request handler). -/
def effectiveMessage (body : Json) : Json :=
  match jsMember body "message" with
  | some m => if truthy m then m else (if truthy body then body else Json.obj [])
  | none => if truthy body then body else Json.obj []

/-- Test for the null body, the only request body on which the member
access in effectiveMessage would throw. -/
def jsIsNull : Json → Bool
  | .null => true
  | _ => false

/-- Variant 1 processing of the effective message object (src/index.js
lines 93-133): the no-op acknowledgment on missing or empty text, the
chat id extraction, the provider selection with fallback, and the
outbound send. The oracles hfResp and oaResp are the network outcomes of
the two provider endpoints, and sendOk the outcome of the Telegram
sendMessage call. -/
def processMessage (env : Env) (message : Json) (hfResp oaResp : Except Unit Json)
    (sendOk : Bool) : HRes :=
  if ¬ truthy message then ⟨200, [], [], []⟩
  else
    let tOpt := jsMember message "text"
    if ¬ truthyOpt tOpt then ⟨200, [], [], []⟩
    else
      let chatId : Option Json :=
        match jsMember message "chat" with
        | none => none
        | some c => if truthy c then jsMember c "id" else some c
      let userText : Json := tOpt.getD Json.null
      let pstep : List Json × List Json × Except Unit String :=
        if envTruthy env.hfKey then
          match callHuggingFace hfResp with
          | .ok reply => ([userText], [], .ok reply)
          | .error _ =>
            if envTruthy env.openaiKey then
              ([userText], [userText], callOpenAI oaResp)
            else
              ([userText], [], .ok apologyReply)
        else if envTruthy env.openaiKey then
          ([], [userText], callOpenAI oaResp)
        else
          ([], [], .ok notConfiguredReply)
      match pstep with
      | (hfs, oas, .error _) => ⟨500, hfs, oas, []⟩
      | (hfs, oas, .ok reply) =>
          ⟨if sendOk then 200 else 500, hfs, oas,
            [⟨chatId, some (Json.str reply)⟩]⟩

/-- Variant 1 webhook handler (src/index.js lines 90-138). A null body
makes req.body.message throw, which the outer catch answers with 500;
any fault escaping the provider step (a failed OpenAI call) or a failed
send lands in the same catch. -/
def handleWebhookV1 (env : Env) (body : Json) (hfResp oaResp : Except Unit Json)
    (sendOk : Bool) : HRes :=
  if jsIsNull body then ⟨500, [], [], []⟩
  else processMessage env (effectiveMessage body) hfResp oaResp sendOk

/-- Observable outcome of one webhook request in variant 2: the HTTP
status (none when an exception escapes the handler outside its try block
and no response is produced), the OpenAI call trace and the send
trace. -/
structure V2Res where
  status : Option Nat
  oaCalls : List Json
  sends : List SendReq

/-- Variant 2 webhook handler (src/index.js lines 161-195). There is no
req.body fallback: a missing message is acknowledged with 200; the chat
id is read as message.chat.id outside the try block, so a missing chat
throws with no response; the OpenAI reply content is not trimmed and an
absent content field is sent as undefined. -/
def handleWebhookV2 (body : Json) (oaResp : Except Unit Json) (sendOk : Bool) :
    V2Res :=
  if jsIsNull body then ⟨none, [], []⟩
  else
    match jsMember body "message" with
    | none => ⟨some 200, [], []⟩
    | some message =>
      if ¬ truthy message then ⟨some 200, [], []⟩
      else
        let tOpt := jsMember message "text"
        if ¬ truthyOpt tOpt then ⟨some 200, [], []⟩
        else
          match jsDot message "chat" with
          | .error _ => ⟨none, [], []⟩
          | .ok chatOpt =>
            match jsDotO chatOpt "id" with
            | .error _ => ⟨none, [], []⟩
            | .ok chatId =>
              let userText : Json := tOpt.getD Json.null
              let replyE : Except Unit (Option Json) := do
                let data ← oaResp
                let choices ← jsDot data "choices"
                let c0 ← jsDotO choices "0"
                let msg ← jsDotO c0 "message"
                jsDotO msg "content"
              match replyE with
              | .error _ => ⟨some 500, [userText], []⟩
              | .ok reply =>
                  ⟨some (if sendOk then 200 else 500), [userText],
                    [⟨chatId, reply⟩]⟩

/-- Outcome of process startup. -/
inductive StartupResult where
  | exitProcess : Nat → StartupResult
  | serving : StartupResult
deriving DecidableEq

/-- Variant 1 startup check (src/index.js lines 21-24): a falsy
TELEGRAM_BOT_TOKEN makes the process exit with code 1 before the server
is created. -/
def startupV1 (token : Option String) : StartupResult :=
  if ¬ envTruthy token then .exitProcess 1 else .serving

/-- Variant 2 startup (src/index.js lines 156-159 and 201-204): the
token is read but never checked, and the server starts listening
regardless. -/
def startupV2 (_token : Option String) : StartupResult :=
  .serving

/-- Canonical Telegram update envelope with a chat id and a message
text, as in the end-to-end scenario of the specification. -/
def mkEnvelope (cid : Json) (t : String) : Json :=
  Json.obj [("message", Json.obj [("chat", Json.obj [("id", cid)]),
    ("text", Json.str t)])]

/-- C2 (counterexample): the normalizer does not return the
generated-text field merely because the field is present, and does not
return a string response unchanged. On [ \x7b generated_text: "" \x7d ]
the falsy field is skipped and the whole value is stringified instead of
yielding the empty field value, and the string " hi " comes back
trimmed, not as itself. -/
theorem C2_counterexample :
    hfNormalize (Json.arr [Json.obj [("generated_text", Json.str "")]]) =
      Except.ok "[\x7b\"generated_text\":\"\"\x7d]" ∧
    ("[\x7b\"generated_text\":\"\"\x7d]" : String) ≠ "" ∧
    hfNormalize (Json.str " hi ") = Except.ok "hi" ∧
    ("hi" : String) ≠ " hi " :=
  ⟨rfl, by decide, rfl, by decide⟩

/-- Property access on a value that is not the null literal never
throws and yields the plain member lookup. -/
theorem jsDot_not_null (x : Json) (k : String) (hx : jsIsNull x = false) :
    jsDot x k = Except.ok (jsMember x k) := by
  cases x <;> simp_all [jsDot, jsIsNull]

/-- Trim invoked on a value that is not a string throws. -/
theorem jsTrim_not_str (v : Json) (hv : ∀ s : String, v ≠ Json.str s) :
    jsTrim v = Except.error () := by
  cases v <;> first | rfl | exact absurd rfl (hv _)

/-- A value with a member under some key is an object or an array, never
the null literal. -/
theorem jsIsNull_of_member (x : Json) (k : String) (v : Json)
    (h : jsMember x k = some v) : jsIsNull x = false := by
  cases x <;> simp_all [jsMember, jsIsNull]

/-- C2 (amended): the normalizer maps a provider response to plain text
by the fixed priority order of the code: (a) if it is a non-empty array
whose first element carries a truthy generated_text field, that field —
reading the field throws when the first element is null, so that
response fails the provider call instead of normalizing; otherwise
(b) if it is a string, the string; otherwise (c) if it is an object
whose own generated_text field is truthy, that field; otherwise (d) if
its index-0 entry is truthy and that entry carries a truthy
generated_text field, that field; otherwise (e) its stringified JSON —
this is where an array whose first element lacks a truthy generated_text
field lands, since for arrays the index-0 retry re-checks the same
field; null, booleans and numbers are rendered with the String
conversion. The selected reply is then trimmed of surrounding
whitespace, and a truthy selected reply that is not a string makes the
normalizer throw (trim is not a function on it), again a provider
failure. For every shape the extraction is a pure function of the
response, hence deterministic. The conjuncts below cover every response
value. -/
theorem C2_normalizer_priority :
    (∀ rest : List Json,
      hfNormalize (Json.arr (Json.null :: rest)) = Except.error ()) ∧
    (∀ (x : Json) (rest : List Json) (s : String),
      jsMember x "generated_text" = some (Json.str s) → s ≠ "" →
      hfNormalize (Json.arr (x :: rest)) = Except.ok (trimString s)) ∧
    (∀ (x : Json) (rest : List Json) (v : Json),
      jsMember x "generated_text" = some v → truthy v = true →
      (∀ s : String, v ≠ Json.str s) →
      hfNormalize (Json.arr (x :: rest)) = Except.error ()) ∧
    (∀ (x : Json) (rest : List Json), jsIsNull x = false →
      truthyOpt (jsMember x "generated_text") = false →
      hfNormalize (Json.arr (x :: rest)) =
        Except.ok (trimString (jsonStringify (Json.arr (x :: rest))))) ∧
    (hfNormalize (Json.arr []) =
      Except.ok (trimString (jsonStringify (Json.arr [])))) ∧
    (∀ s : String, hfNormalize (Json.str s) = Except.ok (trimString s)) ∧
    (∀ (fs : List (String × Json)) (s : String),
      lookupField fs "generated_text" = some (Json.str s) → s ≠ "" →
      hfNormalize (Json.obj fs) = Except.ok (trimString s)) ∧
    (∀ (fs : List (String × Json)) (v : Json),
      lookupField fs "generated_text" = some v → truthy v = true →
      (∀ s : String, v ≠ Json.str s) →
      hfNormalize (Json.obj fs) = Except.error ()) ∧
    (∀ (fs : List (String × Json)) (z : Json) (s : String),
      truthyOpt (lookupField fs "generated_text") = false →
      lookupField fs "0" = some z → truthy z = true →
      jsMember z "generated_text" = some (Json.str s) → s ≠ "" →
      hfNormalize (Json.obj fs) = Except.ok (trimString s)) ∧
    (∀ (fs : List (String × Json)) (z v : Json),
      truthyOpt (lookupField fs "generated_text") = false →
      lookupField fs "0" = some z → truthy z = true →
      jsMember z "generated_text" = some v → truthy v = true →
      (∀ s : String, v ≠ Json.str s) →
      hfNormalize (Json.obj fs) = Except.error ()) ∧
    (∀ fs : List (String × Json),
      truthyOpt (lookupField fs "generated_text") = false →
      truthyOpt (lookupField fs "0") = false →
      hfNormalize (Json.obj fs) =
        Except.ok (trimString (jsonStringify (Json.obj fs)))) ∧
    (∀ (fs : List (String × Json)) (z : Json),
      truthyOpt (lookupField fs "generated_text") = false →
      lookupField fs "0" = some z → truthy z = true →
      truthyOpt (jsMember z "generated_text") = false →
      hfNormalize (Json.obj fs) =
        Except.ok (trimString (jsonStringify (Json.obj fs)))) ∧
    (hfNormalize Json.null = Except.ok (trimString "null")) ∧
    (∀ b : Bool, hfNormalize (Json.bool b) =
      Except.ok (trimString (cond b "true" "false"))) ∧
    (∀ n : Int, hfNormalize (Json.num n) =
      Except.ok (trimString (toString n))) := by
  refine ⟨fun rest => rfl, ?_, ?_, ?_, rfl, fun s => rfl, ?_, ?_, ?_, ?_, ?_,
    ?_, rfl, fun b => by cases b <;> rfl, fun n => rfl⟩
  · intro x rest s hmem hs
    have hx : jsIsNull x = false := jsIsNull_of_member x _ _ hmem
    simp [hfNormalize, jsDot_not_null x _ hx, hmem, truthyOpt, truthy, hs,
      jsTrim, bind, Except.bind, pure, Except.pure]
  · intro x rest v hmem htr hv
    have hx : jsIsNull x = false := jsIsNull_of_member x _ _ hmem
    simp [hfNormalize, jsDot_not_null x _ hx, hmem, truthyOpt, htr,
      jsTrim_not_str v hv, bind, Except.bind, pure, Except.pure]
  · intro x rest hx hg
    simp [truthyOpt, truthy, jsMember] at hg
    cases hz : truthy x <;> simp only [truthy] at hz <;>
      simp [hfNormalize, jsDot_not_null x _ hx, hg, hfObjectBranch, jsMember,
        truthyOpt, truthy, hz, jsTrim, bind, Except.bind, pure, Except.pure]
  · intro fs s hmem hs
    simp [hfNormalize, hfObjectBranch, jsMember, hmem, truthyOpt, truthy, hs,
      jsTrim, bind, Except.bind, pure, Except.pure]
  · intro fs v hmem htr hv
    simp [hfNormalize, hfObjectBranch, jsMember, hmem, truthyOpt, htr,
      jsTrim_not_str v hv, bind, Except.bind, pure, Except.pure]
  · intro fs z s hg hz0 hzt hmem hs
    simp only [truthyOpt, truthy] at hg
    simp only [truthy] at hzt
    simp [jsMember] at hmem
    simp [hfNormalize, hfObjectBranch, jsMember, hg, hz0, hzt, hmem, truthyOpt,
      truthy, hs, jsTrim, bind, Except.bind, pure, Except.pure]
  · intro fs z v hg hz0 hzt hmem htr hv
    simp only [truthyOpt, truthy] at hg
    simp only [truthy] at hzt htr
    simp [jsMember] at hmem
    simp [hfNormalize, hfObjectBranch, jsMember, hg, hz0, hzt, hmem, truthyOpt,
      truthy, htr, jsTrim_not_str v hv, bind, Except.bind, pure, Except.pure]
  · intro fs hg hz0
    simp only [truthyOpt, truthy] at hg hz0
    simp [hfNormalize, hfObjectBranch, jsMember, hg, hz0, truthyOpt, truthy,
      jsTrim, bind, Except.bind, pure, Except.pure]
  · intro fs z hg hz0 hzt hg2
    simp only [truthyOpt, truthy] at hg
    simp only [truthy] at hzt
    simp [truthyOpt, truthy, jsMember] at hg2
    simp [hfNormalize, hfObjectBranch, jsMember, hg, hz0, hzt, hg2, truthyOpt,
      truthy, jsTrim, bind, Except.bind, pure, Except.pure]

/-- C2 (witness): the amended normalizer theorem applied at concrete
responses, among them the index-0 retry shape and the null first
element. -/
theorem C2_normalizer_priority_witness :
    hfNormalize (Json.arr (Json.null :: [])) = Except.error () ∧
    hfNormalize (Json.arr [Json.obj [("generated_text", Json.str " a ")]]) =
      Except.ok (trimString " a ") ∧
    hfNormalize (Json.obj [("0", Json.obj [("generated_text", Json.str "x")])]) =
      Except.ok (trimString "x") ∧
    hfNormalize (Json.obj [("x", Json.num 3)]) =
      Except.ok (trimString (jsonStringify (Json.obj [("x", Json.num 3)]))) :=
  ⟨C2_normalizer_priority.1 [],
    C2_normalizer_priority.2.1 (Json.obj [("generated_text", Json.str " a ")])
      [] " a " rfl (by decide),
    C2_normalizer_priority.2.2.2.2.2.2.2.2.1
      [("0", Json.obj [("generated_text", Json.str "x")])]
      (Json.obj [("generated_text", Json.str "x")]) "x" rfl rfl rfl rfl
      (by decide),
    C2_normalizer_priority.2.2.2.2.2.2.2.2.2.2.1 [("x", Json.num 3)] rfl rfl⟩

/-- C8 (counterexample): variant 2 performs no startup token check; with
the bot token absent it still proceeds to serve instead of exiting. -/
theorem C8_counterexample :
    startupV2 none = StartupResult.serving ∧
    StartupResult.serving ≠ StartupResult.exitProcess 1 :=
  ⟨rfl, by decide⟩

/-- C8 (amended): variant 1 exits with code 1 when the bot token is
absent (or set to the empty string) and proceeds to serve when a
non-empty token is present; variant 2 performs no startup check and
serves whatever the token is. -/
theorem C8_startup_check :
    startupV1 none = StartupResult.exitProcess 1 ∧
    startupV1 (some "") = StartupResult.exitProcess 1 ∧
    (∀ s : String, s ≠ "" → startupV1 (some s) = StartupResult.serving) ∧
    (∀ t : Option String, startupV2 t = StartupResult.serving) := by
  refine ⟨rfl, rfl, ?_, fun _ => rfl⟩
  intro s hs
  simp [startupV1, envTruthy, hs]

/-- C8 (witness): the amended startup theorem applied at a concrete
non-empty token. -/
theorem C8_startup_check_witness :
    startupV1 (some "tok") = StartupResult.serving :=
  C8_startup_check.2.2.1 "tok" (by decide)

/-- C1 (counterexample): with both provider keys configured and both
calls failing, variant 1 answers 500 and attempts no outbound send; the
apology is neither produced nor delivered, and the provider failure
alone does produce a 500. -/
theorem C1_counterexample :
    handleWebhookV1 ⟨some "h", some "o"⟩ (mkEnvelope (Json.num 1) "hi")
      (Except.error ()) (Except.error ()) true =
      ⟨500, [Json.str "hi"], [Json.str "hi"], []⟩ ∧
    ([] : List SendReq) ≠ [⟨some (Json.num 1), some (Json.str apologyReply)⟩] :=
  ⟨rfl, by simp⟩

/-- C1 (amended): when the primary provider is the only configured one
and its call fails, the reply is the fixed apology, the outbound send is
attempted with it, and the provider failure alone does not yield a 500
(the request is answered 200 whenever the send succeeds). When a
secondary provider is also configured and its call fails too, the fault
escapes to the outer catch: the request is answered 500 and no send is
attempted. -/
theorem C1_total_failure (cid : Json) (t : String) (ht : t ≠ "")
    (hfK : String) (hh : hfK ≠ "") (hfResp : Except Unit Json)
    (hfail : callHuggingFace hfResp = Except.error ()) (sendOk : Bool) :
    (∀ oaResp : Except Unit Json,
      handleWebhookV1 ⟨some hfK, none⟩ (mkEnvelope cid t) hfResp oaResp sendOk =
        ⟨if sendOk then 200 else 500, [Json.str t], [],
          [⟨some cid, some (Json.str apologyReply)⟩]⟩) ∧
    (∀ oaK : String, oaK ≠ "" → ∀ e2 : Unit,
      handleWebhookV1 ⟨some hfK, some oaK⟩ (mkEnvelope cid t) hfResp
        (Except.error e2) sendOk = ⟨500, [Json.str t], [Json.str t], []⟩) := by
  constructor
  · intro oaResp
    simp [handleWebhookV1, processMessage, effectiveMessage, mkEnvelope,
      jsIsNull, jsMember, lookupField, truthy, truthyOpt, envTruthy, ht, hh,
      hfail, callOpenAI, bind, Except.bind]
  · intro oaK ho e2
    simp [handleWebhookV1, processMessage, effectiveMessage, mkEnvelope,
      jsIsNull, jsMember, lookupField, truthy, truthyOpt, envTruthy, ht, hh,
      ho, hfail, callOpenAI, bind, Except.bind]

/-- C1 (witness): the amended total-failure theorem applied at a
concrete envelope with a failing primary call. -/
theorem C1_total_failure_witness :
    handleWebhookV1 ⟨some "h", none⟩ (mkEnvelope (Json.num 1) "hi")
      (Except.error ()) (Except.ok Json.null) true =
      ⟨200, [Json.str "hi"], [],
        [⟨some (Json.num 1), some (Json.str apologyReply)⟩]⟩ :=
  (C1_total_failure (Json.num 1) "hi" (by decide) "h" (by decide)
    (Except.error ()) rfl true).1 (Except.ok Json.null)

/-- C3: with both provider keys configured, a failing primary
(Hugging Face) call makes variant 1 attempt exactly one OpenAI call, and
the text passed to OpenAI is the same user text that was passed to
Hugging Face, whatever the OpenAI call then returns and whatever the
send outcome. -/
theorem C3_fallback_same_text (cid : Json) (t : String) (ht : t ≠ "")
    (hfK oaK : String) (hh : hfK ≠ "") (ho : oaK ≠ "")
    (hfResp : Except Unit Json)
    (hfail : callHuggingFace hfResp = Except.error ())
    (oaResp : Except Unit Json) (sendOk : Bool) :
    (handleWebhookV1 ⟨some hfK, some oaK⟩ (mkEnvelope cid t) hfResp oaResp
      sendOk).oaCalls = [Json.str t] ∧
    (handleWebhookV1 ⟨some hfK, some oaK⟩ (mkEnvelope cid t) hfResp oaResp
      sendOk).hfCalls = [Json.str t] := by
  cases hoa : callOpenAI oaResp with
  | ok r =>
    simp [handleWebhookV1, processMessage, effectiveMessage, mkEnvelope,
      jsIsNull, jsMember, lookupField, truthy, truthyOpt, envTruthy, ht, hh,
      ho, hfail, hoa]
  | error e =>
    simp [handleWebhookV1, processMessage, effectiveMessage, mkEnvelope,
      jsIsNull, jsMember, lookupField, truthy, truthyOpt, envTruthy, ht, hh,
      ho, hfail, hoa]

/-- C3 (witness): the fallback theorem applied at a concrete envelope
with a failing primary call. -/
theorem C3_fallback_same_text_witness :
    (handleWebhookV1 ⟨some "h", some "o"⟩ (mkEnvelope (Json.num 1) "hi")
      (Except.error ()) (Except.error ()) true).oaCalls = [Json.str "hi"] ∧
    (handleWebhookV1 ⟨some "h", some "o"⟩ (mkEnvelope (Json.num 1) "hi")
      (Except.error ()) (Except.error ()) true).hfCalls = [Json.str "hi"] :=
  C3_fallback_same_text (Json.num 1) "hi" (by decide) "h" "o" (by decide)
    (by decide) (Except.error ()) rfl (Except.error ()) true

/-- C4: an inbound body (other than the null literal, which the JSON
body parser never produces) whose effective message has an absent or
empty text field is acknowledged with 200, with no provider call and no
outbound send. -/
theorem C4_ignore_no_text (env : Env) (body : Json)
    (hbody : jsIsNull body = false)
    (htext : jsMember (effectiveMessage body) "text" = none ∨
      jsMember (effectiveMessage body) "text" = some (Json.str ""))
    (hfResp oaResp : Except Unit Json) (sendOk : Bool) :
    handleWebhookV1 env body hfResp oaResp sendOk = ⟨200, [], [], []⟩ := by
  by_cases hm : truthy (effectiveMessage body)
  · rcases htext with h | h
    · simp [handleWebhookV1, processMessage, hbody, hm, h, truthyOpt]
    · simp [handleWebhookV1, processMessage, hbody, hm, h, truthyOpt, truthy]
  · simp [handleWebhookV1, processMessage, hbody, hm]

/-- C4 (witness): the no-text theorem applied at a concrete non-text
update body. -/
theorem C4_ignore_no_text_witness :
    handleWebhookV1 ⟨some "h", some "o"⟩
      (Json.obj [("message", Json.obj [("chat", Json.obj [("id", Json.num 1)])])])
      (Except.ok Json.null) (Except.ok Json.null) true = ⟨200, [], [], []⟩ :=
  C4_ignore_no_text ⟨some "h", some "o"⟩
    (Json.obj [("message", Json.obj [("chat", Json.obj [("id", Json.num 1)])])])
    rfl (Or.inl rfl) (Except.ok Json.null) (Except.ok Json.null) true

/-- C5: with neither provider key configured (unset or empty), variant 1
makes no provider call and still attempts the outbound send, whose text
is the fixed not-configured reply; the request is answered 200 when that
send succeeds. -/
theorem C5_not_configured (cid : Json) (t : String) (ht : t ≠ "")
    (hfK oaK : Option String) (hh : envTruthy hfK = false)
    (ho : envTruthy oaK = false) (hfResp oaResp : Except Unit Json)
    (sendOk : Bool) :
    handleWebhookV1 ⟨hfK, oaK⟩ (mkEnvelope cid t) hfResp oaResp sendOk =
      ⟨if sendOk then 200 else 500, [], [],
        [⟨some cid, some (Json.str notConfiguredReply)⟩]⟩ := by
  simp [handleWebhookV1, processMessage, effectiveMessage, mkEnvelope,
    jsIsNull, jsMember, lookupField, truthy, truthyOpt, ht, hh, ho]

/-- C5 (witness): the not-configured theorem applied at a concrete
envelope with no provider keys. -/
theorem C5_not_configured_witness :
    handleWebhookV1 ⟨none, some ""⟩ (mkEnvelope (Json.num 1) "hi")
      (Except.ok Json.null) (Except.ok Json.null) true =
      ⟨200, [], [], [⟨some (Json.num 1), some (Json.str notConfiguredReply)⟩]⟩ :=
  C5_not_configured (Json.num 1) "hi" (by decide) none (some "") rfl rfl
    (Except.ok Json.null) (Except.ok Json.null) true

/-- C6 (counterexample): a body carrying message text but no chat object
is not a no-op in variant 1: the provider is called and a send is
attempted (with an undefined chat id), contradicting the claim that
a missing chat id yields an accepted no-op with no provider call. -/
theorem C6_counterexample :
    handleWebhookV1 ⟨some "k", none⟩
        (Json.obj [("message", Json.obj [("text", Json.str "hi")])])
        (Except.ok (Json.str "ok")) (Except.error ()) true =
      ⟨200, [Json.str "hi"], [], [⟨none, some (Json.str "ok")⟩]⟩ ∧
    ([Json.str "hi"] : List Json) ≠ [] :=
  ⟨rfl, by simp⟩

/-- C6 (amended): the inbound extraction treats only an absent or falsy
text as the no-op condition; a missing chat id does not prevent
processing. For a body whose message has text but no chat, the provider
is still called with that text and any outbound send that is attempted
carries an undefined chat id. -/
theorem C6_missing_chat_processed (t : String) (ht : t ≠ "") (k : String)
    (hk : k ≠ "") (hfResp oaResp : Except Unit Json) (sendOk : Bool) :
    (handleWebhookV1 ⟨some k, none⟩
      (Json.obj [("message", Json.obj [("text", Json.str t)])]) hfResp oaResp
        sendOk).hfCalls = [Json.str t] ∧
    ∀ s ∈ (handleWebhookV1 ⟨some k, none⟩
      (Json.obj [("message", Json.obj [("text", Json.str t)])]) hfResp oaResp
        sendOk).sends, s.chat = none := by
  cases hr : callHuggingFace hfResp <;>
    simp [handleWebhookV1, processMessage, effectiveMessage, jsIsNull, jsMember,
      lookupField, truthy, truthyOpt, envTruthy, ht, hk, hr]

/-- C6 (witness): the amended missing-chat theorem applied at a concrete
body without a chat object. -/
theorem C6_missing_chat_processed_witness :
    (handleWebhookV1 ⟨some "k", none⟩
      (Json.obj [("message", Json.obj [("text", Json.str "hi")])])
      (Except.ok (Json.str "ok")) (Except.error ()) true).hfCalls =
      [Json.str "hi"] ∧
    ∀ s ∈ (handleWebhookV1 ⟨some "k", none⟩
      (Json.obj [("message", Json.obj [("text", Json.str "hi")])])
      (Except.ok (Json.str "ok")) (Except.error ()) true).sends,
      s.chat = none :=
  C6_missing_chat_processed "hi" (by decide) "k" (by decide)
    (Except.ok (Json.str "ok")) (Except.error ()) true

/-- C7: whenever variant 1 attempts an outbound send and that send
fails, the request is answered 500 (marked failed for redelivery), for
every body, environment and pair of provider outcomes. -/
theorem C7_send_failure_500 (env : Env) (body : Json)
    (hfResp oaResp : Except Unit Json)
    (hsend : (handleWebhookV1 env body hfResp oaResp false).sends ≠ []) :
    (handleWebhookV1 env body hfResp oaResp false).status = 500 := by
  by_cases hb : jsIsNull body
  · simp [handleWebhookV1, hb]
  · by_cases h1 : truthy (effectiveMessage body)
    · by_cases h2 : truthyOpt (jsMember (effectiveMessage body) "text")
      · cases hr : callHuggingFace hfResp <;> cases ho2 : callOpenAI oaResp <;>
          cases hhf : envTruthy env.hfKey <;>
          cases hoa : envTruthy env.openaiKey <;>
          simp [handleWebhookV1, processMessage, hb, h1, h2, hr, ho2, hhf, hoa]
      · exact absurd (by simp [handleWebhookV1, processMessage, hb, h1, h2]) hsend
    · exact absurd (by simp [handleWebhookV1, processMessage, hb, h1]) hsend

/-- C7 (witness): the send-failure theorem applied at a concrete request
whose send is attempted and fails. -/
theorem C7_send_failure_500_witness :
    (handleWebhookV1 ⟨none, none⟩ (mkEnvelope (Json.num 1) "hi")
      (Except.ok Json.null) (Except.ok Json.null) false).status = 500 :=
  C7_send_failure_500 ⟨none, none⟩ (mkEnvelope (Json.num 1) "hi")
    (Except.ok Json.null) (Except.ok Json.null)
    (fun h => List.cons_ne_nil _ _ h)

/-- C9 (counterexample): with only OpenAI configured and a successful
chat-completion response whose content is " hi ", the two variants do
not send the same reply text for the same envelope: variant 1 trims the
content and sends "hi", variant 2 sends " hi " unchanged. -/
theorem C9_counterexample :
    (handleWebhookV1 ⟨none, some "o"⟩ (mkEnvelope (Json.num 7) "q")
      (Except.error ()) (Except.ok (Json.obj [("choices", Json.arr [Json.obj
        [("message", Json.obj [("content", Json.str " hi ")])]])])) true).sends =
      [⟨some (Json.num 7), some (Json.str "hi")⟩] ∧
    (handleWebhookV2 (mkEnvelope (Json.num 7) "q")
      (Except.ok (Json.obj [("choices", Json.arr [Json.obj
        [("message", Json.obj [("content", Json.str " hi ")])]])])) true).sends =
      [⟨some (Json.num 7), some (Json.str " hi ")⟩] ∧
    ("hi" : String) ≠ " hi " :=
  ⟨rfl, rfl, by decide⟩

/-- C9 (amended): with only OpenAI configured, a well-formed envelope,
and a successful chat-completion response whose content string is
invariant under trimming, the two variants are equivalent: both send
that content to the envelope chat id and both answer 200. When the
content has surrounding whitespace the variants differ, variant 1
sending the trimmed content and variant 2 the raw content. -/
theorem C9_variants_agree (cid : Json) (t s : String) (ht : t ≠ "")
    (hs : trimString s = s) (oaK : String) (ho : oaK ≠ "")
    (hfResp : Except Unit Json) :
    handleWebhookV1 ⟨none, some oaK⟩ (mkEnvelope cid t) hfResp
      (Except.ok (Json.obj [("choices", Json.arr [Json.obj [("message",
        Json.obj [("content", Json.str s)])]])])) true =
      ⟨200, [], [Json.str t], [⟨some cid, some (Json.str s)⟩]⟩ ∧
    handleWebhookV2 (mkEnvelope cid t)
      (Except.ok (Json.obj [("choices", Json.arr [Json.obj [("message",
        Json.obj [("content", Json.str s)])]])])) true =
      ⟨some 200, [Json.str t], [⟨some cid, some (Json.str s)⟩]⟩ := by
  constructor
  · simp [handleWebhookV1, processMessage, effectiveMessage, mkEnvelope,
      jsIsNull, jsMember, lookupField, truthy, truthyOpt, envTruthy, ht, ho,
      callOpenAI, jsDot, jsDotO, jsTrim, hs, bind, Except.bind]
  · simp [handleWebhookV2, mkEnvelope, jsIsNull, jsMember, lookupField, truthy,
      truthyOpt, ht, jsDot, jsDotO, bind, Except.bind]

/-- C9 (witness): the agreement theorem applied at a concrete envelope
and a concrete trim-invariant content. -/
theorem C9_variants_agree_witness :
    handleWebhookV1 ⟨none, some "o"⟩ (mkEnvelope (Json.num 7) "q")
      (Except.error ())
      (Except.ok (Json.obj [("choices", Json.arr [Json.obj [("message",
        Json.obj [("content", Json.str "hi")])]])])) true =
      ⟨200, [], [Json.str "q"], [⟨some (Json.num 7), some (Json.str "hi")⟩]⟩ ∧
    handleWebhookV2 (mkEnvelope (Json.num 7) "q")
      (Except.ok (Json.obj [("choices", Json.arr [Json.obj [("message",
        Json.obj [("content", Json.str "hi")])]])])) true =
      ⟨some 200, [Json.str "q"], [⟨some (Json.num 7), some (Json.str "hi")⟩]⟩ :=
  C9_variants_agree (Json.num 7) "q" "hi" (by decide) rfl "o" (by decide)
    (Except.error ())

/-- C10: in variant 1, a non-null truthy body with no message field is
handled exactly as if it were wrapped in a message field: the handler
result is identical, and when the primary provider key is set and the
body has truthy text the provider is indeed called with that text. -/
theorem C10_unwrapped_body (env : Env) (body : Json)
    (hmsg : jsMember body "message" = none) (hb : truthy body = true)
    (hfResp oaResp : Except Unit Json) (sendOk : Bool) :
    handleWebhookV1 env body hfResp oaResp sendOk =
      handleWebhookV1 env (Json.obj [("message", body)]) hfResp oaResp sendOk ∧
    (envTruthy env.hfKey = true → truthyOpt (jsMember body "text") = true →
      (handleWebhookV1 env body hfResp oaResp sendOk).hfCalls =
        [(jsMember body "text").getD Json.null]) := by
  have hnn : jsIsNull body = false := by
    cases body <;> simp_all [truthy, jsIsNull]
  have hem : effectiveMessage body = body := by
    simp [effectiveMessage, hmsg, hb]
  have hem2 : effectiveMessage (Json.obj [("message", body)]) = body := by
    simp [effectiveMessage, jsMember, lookupField, hb]
  have hnn2 : jsIsNull (Json.obj [("message", body)]) = false := rfl
  constructor
  · simp [handleWebhookV1, hnn, hnn2, hem, hem2]
  · intro hhf htext
    cases hr : callHuggingFace hfResp <;>
      cases hoa : envTruthy env.openaiKey <;>
      cases ho2 : callOpenAI oaResp <;>
      simp [handleWebhookV1, processMessage, hnn, hem, hb, htext, hhf, hr,
        hoa, ho2]

/-- C10 (witness): the unwrapped-body theorem applied at a concrete body
of the form with chat and text but no message wrapper. -/
theorem C10_unwrapped_body_witness :
    handleWebhookV1 ⟨some "k", none⟩
        (Json.obj [("chat", Json.obj [("id", Json.num 3)]),
          ("text", Json.str "yo")])
        (Except.ok (Json.str "ok")) (Except.error ()) true =
      handleWebhookV1 ⟨some "k", none⟩
        (Json.obj [("message", Json.obj [("chat", Json.obj [("id", Json.num 3)]),
          ("text", Json.str "yo")])])
        (Except.ok (Json.str "ok")) (Except.error ()) true ∧
    (envTruthy (some "k") = true →
      truthyOpt (jsMember (Json.obj [("chat", Json.obj [("id", Json.num 3)]),
        ("text", Json.str "yo")]) "text") = true →
      (handleWebhookV1 ⟨some "k", none⟩
        (Json.obj [("chat", Json.obj [("id", Json.num 3)]),
          ("text", Json.str "yo")])
        (Except.ok (Json.str "ok")) (Except.error ()) true).hfCalls =
        [(jsMember (Json.obj [("chat", Json.obj [("id", Json.num 3)]),
          ("text", Json.str "yo")]) "text").getD Json.null]) :=
  C10_unwrapped_body ⟨some "k", none⟩
    (Json.obj [("chat", Json.obj [("id", Json.num 3)]), ("text", Json.str "yo")])
    rfl rfl (Except.ok (Json.str "ok")) (Except.error ()) true
